import Mathlib

/-!
Verification of the ABS controller core (`ecu_safety_systems/abs_control.cpp`)
against its natural-language design specification.

The C++ code is shallowly embedded: `double` becomes `ℚ` (the source performs
only exact field arithmetic on the values the claims speak about), the mutable
`ABSControl` object becomes an explicit state record, and each member function
becomes a state-passing Lean function.  The random fault source inside
`runDiagnostics` (`rand()`) is modelled as explicit inputs.
-/

namespace AbsControl

/-- `enum class ABSState` from `abs_control.h`. -/
inductive ABSState where
  | INACTIVE
  | MONITORING
  | INTERVENING
  | FAULT_DETECTED
  | INITIALIZING
deriving DecidableEq, Repr

open ABSState

/-- `struct SensorData` from `common/datatypes.h` (the fields the ABS code reads:
`id` and `value`; `unit` and `timestamp_ms` are never inspected). -/
structure SensorData where
  id : Int
  value : ℚ
deriving DecidableEq, Repr

/-- `struct WheelSensorData` from `abs_control.h`. -/
structure WheelSensorData where
  wheel_id : Int
  speed_kmh : ℚ
  is_locking : Bool
  applied_brake_pressure_bar : ℚ
deriving DecidableEq, Repr, Inhabited

/-- The mutable state of `class ABSControl` from `abs_control.h`. -/
structure ABSControl where
  current_abs_state_ : ABSState
  wheel_data_ : List WheelSensorData
  vehicle_reference_speed_kmh_ : ℚ
  cycles_since_last_intervention_ : Int
  fault_code_ : Int
deriving DecidableEq, Repr

/-- The per-wheel speed write in the loop of `updateVehicleReferenceSpeed`:
`wheel_data_[i].speed_kmh = wheel_speed_sensors[i].value`, for
`i < wheel_speed_sensors.size() && i < wheel_data_.size()`. -/
def updateWheelSpeeds : List WheelSensorData → List SensorData → List WheelSensorData
  | [], _ => []
  | wds, [] => wds
  | wd :: wds, s :: ss => { wd with speed_kmh := s.value } :: updateWheelSpeeds wds ss

/-- The accumulators of the loop of `updateVehicleReferenceSpeed`:
`sum_speeds`, `valid_sensors` and `max_wheel_speed` (initialised to 0), taken
over the sensors whose index is below both list lengths and whose `value >= 0`.
(The C++ loop runs forward with accumulators; sum, count and max are
order-independent, so a right fold gives the same triple.) -/
def sensorLoopStats : List SensorData → List WheelSensorData → ℚ × Nat × ℚ
  | [], _ => (0, 0, 0)
  | _, [] => (0, 0, 0)
  | s :: ss, _ :: wds =>
    let r := sensorLoopStats ss wds
    if 0 ≤ s.value then (r.1 + s.value, r.2.1 + 1, max r.2.2 s.value) else r

/-- `ABSControl::updateVehicleReferenceSpeed`: writes the wheel speeds and
recomputes `vehicle_reference_speed_kmh_` (average of valid readings, 50/50
blend with the hint when `hint > 0` and within 20 km/h, bias toward the
maximum wheel speed when `max > ref && ref > 5`, fallback to 0 when no sensor
is valid, final `std::min(·, 300.0)`). -/
def updateVehicleReferenceSpeed (c : ABSControl) (wheel_speed_sensors : List SensorData)
    (current_vehicle_speed_from_state : ℚ) : ABSControl :=
  let stats := sensorLoopStats wheel_speed_sensors c.wheel_data_
  let sum_speeds := stats.1
  let valid_sensors := stats.2.1
  let max_wheel_speed := stats.2.2
  let ref :=
    if 0 < valid_sensors then
      let avg_wheel_speed := sum_speeds / (valid_sensors : ℚ)
      let blended :=
        if 0 < current_vehicle_speed_from_state ∧
            |current_vehicle_speed_from_state - avg_wheel_speed| < 20 then
          (current_vehicle_speed_from_state + avg_wheel_speed) / 2
        else avg_wheel_speed
      if blended < max_wheel_speed ∧ 5 < blended then
        (blended + max_wheel_speed) / 2
      else blended
    else 0
  { c with wheel_data_ := updateWheelSpeeds c.wheel_data_ wheel_speed_sensors,
           vehicle_reference_speed_kmh_ := min ref 300 }

/-- The body of `ABSControl::detectWheelLockup` as a function of the reference
speed and the wheel speed (the only fields the source reads). -/
def lockupCheck (ref speed : ℚ) : Bool :=
  if ref < 5 then false
  else
    let slip := if 1 < ref then (ref - speed) / ref else 0
    decide ((1/5) < slip ∧ speed < ref * (17/20))

/-- `ABSControl::detectWheelLockup` (the deceleration threshold parameter is
unused in the source; speed and reference speed decide the result). -/
def detectWheelLockup (ref : ℚ) (wheel : WheelSensorData) : Bool :=
  lockupCheck ref wheel.speed_kmh

/-- `ABSControl::releasePressure`: `p := max(0, p - 50)` (the following
`if (p < 0) p = 0` in the source is redundant after the `max`). -/
def releasePressure (wheel : WheelSensorData) : WheelSensorData :=
  { wheel with applied_brake_pressure_bar := max 0 (wheel.applied_brake_pressure_bar - 50) }

/-- `ABSControl::holdPressure`: keeps the pressure. -/
def holdPressure (wheel : WheelSensorData) : WheelSensorData := wheel

/-- `ABSControl::reapplyPressure`: `p := p + 20`. -/
def reapplyPressure (wheel : WheelSensorData) : WheelSensorData :=
  { wheel with applied_brake_pressure_bar := wheel.applied_brake_pressure_bar + 20 }

/-- The final clamp `max(0.0, min(p, 200.0))` used at the end of
`modulateBrakePressure` and of `processBraking`. -/
def clampPressure (p : ℚ) : ℚ := max 0 (min p 200)

/-- `ABSControl::modulateBrakePressure`: release when locking, otherwise hold
below 95 % of the reference speed and reapply above it; then clamp. -/
def modulateBrakePressure (ref : ℚ) (wheel : WheelSensorData) : WheelSensorData :=
  let w :=
    if wheel.is_locking then releasePressure wheel
    else if wheel.speed_kmh < ref * (19/20) then holdPressure wheel
    else reapplyPressure wheel
  { w with applied_brake_pressure_bar := clampPressure w.applied_brake_pressure_bar }

/-- The sensor scan of `ABSControl::checkForSystemFaults`, index `i` running
from 0: the first identity mismatch returns fault `10 + i`, the first gross
out-of-range value (`< -10` or `> 350`) returns fault `20 + i`; otherwise the
number of readings with `value >= -1` is returned. -/
def scanSensors : Int → List SensorData → Except Int Nat
  | _, [] => .ok 0
  | i, s :: ss =>
    if s.id ≠ i then .error (10 + i)
    else if s.value < -10 ∨ 350 < s.value then .error (20 + i)
    else
      match scanSensors (i + 1) ss with
      | .error code => .error code
      | .ok n => .ok ((if -1 ≤ s.value then 1 else 0) + n)

/-- `ABSControl::checkForSystemFaults`: a scan fault sets `FAULT_DETECTED` with
its code; otherwise, when some sensor is invalid and the (already updated)
reference speed exceeds 10 km/h, a total sensor loss sets fault 30. -/
def checkForSystemFaults (c : ABSControl) (wheel_speed_sensors : List SensorData) : ABSControl :=
  match scanSensors 0 wheel_speed_sensors with
  | .error code =>
    { c with current_abs_state_ := FAULT_DETECTED, fault_code_ := code }
  | .ok valid_sensor_count =>
    if valid_sensor_count < wheel_speed_sensors.length ∧
        10 < c.vehicle_reference_speed_kmh_ then
      if valid_sensor_count = 0 ∧ 0 < wheel_speed_sensors.length then
        { c with current_abs_state_ := FAULT_DETECTED, fault_code_ := 30 }
      else c
    else c

/-- One wheel of the pass-through loops of `processBraking`:
`wd.applied_brake_pressure_bar = brake_pedal_pressure_input`. -/
def setWheelPressure (pedal : ℚ) (wd : WheelSensorData) : WheelSensorData :=
  { wd with applied_brake_pressure_bar := pedal }

/-- The pass-through loops of `processBraking`, applied to every wheel. -/
def setAllPressures (pedal : ℚ) (wds : List WheelSensorData) : List WheelSensorData :=
  wds.map (setWheelPressure pedal)

/-- The state-transition step of `processBraking` (step 3 in the source): on
loss of the entry condition leave `INTERVENING` for `INACTIVE` resetting the
counter; on the entry condition advance `INACTIVE` to `MONITORING`. -/
def transitionStep (c : ABSControl) (pedal : ℚ) : ABSControl :=
  if ¬(10 < c.vehicle_reference_speed_kmh_ ∧ 20 < pedal) ∧
      c.current_abs_state_ = INTERVENING then
    { c with current_abs_state_ := INACTIVE, cycles_since_last_intervention_ := 0 }
  else if (10 < c.vehicle_reference_speed_kmh_ ∧ 20 < pedal) ∧
      c.current_abs_state_ = INACTIVE then
    { c with current_abs_state_ := MONITORING }
  else c

/-- One wheel of the first per-wheel loop of the `MONITORING`/`INTERVENING`
branch of `processBraking`: set the pressure to the pedal input unless the
state is `INTERVENING` and the wheel was already flagged locking, then
recompute `is_locking` with `detectWheelLockup`. -/
def analyzeWheel (st : ABSState) (ref pedal : ℚ) (wd : WheelSensorData) : WheelSensorData :=
  let wd1 :=
    if st ≠ INTERVENING ∨ wd.is_locking = false then
      { wd with applied_brake_pressure_bar := pedal }
    else wd
  { wd1 with is_locking := detectWheelLockup ref wd1 }

/-- The first per-wheel loop of the `MONITORING`/`INTERVENING` branch of
`processBraking`, applied to every wheel. -/
def analyzeWheels (st : ABSState) (ref pedal : ℚ) (wds : List WheelSensorData) :
    List WheelSensorData :=
  wds.map (analyzeWheel st ref pedal)

/-- One wheel of the modulation loop run when some wheel is locking: modulate
a wheel that is locking or whose speed deficit exceeds 15 % of the reference
speed, otherwise follow the pedal. -/
def modulationWheel (ref pedal : ℚ) (wd : WheelSensorData) : WheelSensorData :=
  if wd.is_locking = true ∨ ref * (3/20) < ref - wd.speed_kmh then
    modulateBrakePressure ref wd
  else { wd with applied_brake_pressure_bar := pedal }

/-- The modulation loop, applied to every wheel. -/
def modulationPass (ref pedal : ℚ) (wds : List WheelSensorData) : List WheelSensorData :=
  wds.map (modulationWheel ref pedal)

/-- One wheel of the recovery loop run in `INTERVENING` when no wheel is
locking: raise a pressure below the pedal request by the `reapplyPressure`
step capped at the pedal request, snap a pressure above it down to the pedal
request. -/
def recoveryWheel (pedal : ℚ) (wd : WheelSensorData) : WheelSensorData :=
  if wd.applied_brake_pressure_bar < pedal then
    let wd1 := reapplyPressure wd
    { wd1 with applied_brake_pressure_bar := min wd1.applied_brake_pressure_bar pedal }
  else { wd with applied_brake_pressure_bar := pedal }

/-- The recovery loop, applied to every wheel. -/
def recoveryPass (pedal : ℚ) (wds : List WheelSensorData) : List WheelSensorData :=
  wds.map (recoveryWheel pedal)

/-- One wheel of the final loop of `processBraking`: clamp the pressure to
`[0, 200]`. -/
def clampWheel (wd : WheelSensorData) : WheelSensorData :=
  { wd with applied_brake_pressure_bar := clampPressure wd.applied_brake_pressure_bar }

/-- The final loop of `processBraking`: clamp every wheel's pressure to
`[0, 200]`. -/
def clampWheels (wds : List WheelSensorData) : List WheelSensorData :=
  wds.map clampWheel

/-- Steps 3 and 4 of `processBraking` (run after the fault check has passed):
the transitions and the main per-wheel logic, including the hysteresis exit
from `INTERVENING` after more than 10 clean cycles. -/
def mainPhase (c : ABSControl) (pedal : ℚ) : ABSControl :=
  let c3 := transitionStep c pedal
  let potential := 10 < c3.vehicle_reference_speed_kmh_ ∧ 20 < pedal
  if c3.current_abs_state_ = MONITORING ∨ c3.current_abs_state_ = INTERVENING then
    let wds1 := analyzeWheels c3.current_abs_state_ c3.vehicle_reference_speed_kmh_ pedal
      c3.wheel_data_
    if wds1.any (·.is_locking) then
      { c3 with current_abs_state_ := INTERVENING,
                cycles_since_last_intervention_ := 0,
                wheel_data_ := modulationPass c3.vehicle_reference_speed_kmh_ pedal wds1 }
    else if c3.current_abs_state_ = INTERVENING then
      let c5 := { c3 with
                  cycles_since_last_intervention_ := c3.cycles_since_last_intervention_ + 1,
                  wheel_data_ := recoveryPass pedal wds1 }
      if 10 < c5.cycles_since_last_intervention_ then
        { c5 with current_abs_state_ := if potential then MONITORING else INACTIVE,
                  cycles_since_last_intervention_ := 0 }
      else c5
    else
      { c3 with current_abs_state_ := if potential then MONITORING else INACTIVE,
                wheel_data_ := setAllPressures pedal wds1 }
  else
    { c3 with wheel_data_ := setAllPressures pedal c3.wheel_data_ }

/-- `ABSControl::processBraking`.  `current_vehicle_speed` is
`vehicle_state.speed_kmh` (the only `VehicleState` field the source reads). -/
def processBraking (c : ABSControl) (current_vehicle_speed : ℚ)
    (wheel_speed_sensors : List SensorData) (brake_pedal_pressure_input : ℚ) : ABSControl :=
  if c.current_abs_state_ = FAULT_DETECTED then
    { c with wheel_data_ := setAllPressures brake_pedal_pressure_input c.wheel_data_ }
  else if c.current_abs_state_ = INITIALIZING then c
  else
    let c1 := updateVehicleReferenceSpeed c wheel_speed_sensors current_vehicle_speed
    let c2 := checkForSystemFaults c1 wheel_speed_sensors
    if c2.current_abs_state_ = FAULT_DETECTED then c2
    else
      let c4 := mainPhase c2 brake_pedal_pressure_input
      { c4 with wheel_data_ := clampWheels c4.wheel_data_ }

/-- `ABSControl::runDiagnostics`.  The two `rand()`-driven outcomes are inputs:
`sensor_conn_ok` models `(rand() % 100) > 2`, `actuator_ok` models
`(rand() % 100) > 3`, and `sensor_rand` models the `rand() % 4` mixed into the
sensor-connectivity fault code. -/
def runDiagnostics (c : ABSControl) (sensor_conn_ok actuator_ok : Bool)
    (sensor_rand : Nat) : ABSControl :=
  let c1 := { c with current_abs_state_ := INITIALIZING, fault_code_ := 0 }
  let c2 :=
    if sensor_conn_ok = false then
      { c1 with current_abs_state_ := FAULT_DETECTED,
                fault_code_ := 50 + (sensor_rand % 4 : Nat) }
    else c1
  let c3 :=
    if actuator_ok = false ∧ c2.current_abs_state_ ≠ FAULT_DETECTED then
      { c2 with current_abs_state_ := FAULT_DETECTED, fault_code_ := 70 }
    else c2
  if c3.current_abs_state_ = FAULT_DETECTED then c3
  else { c3 with current_abs_state_ := INACTIVE }

/-! ### Derived definitions used by the statements -/

/-- The controller reached after the reference-speed update and the fault check
of a `processBraking` cycle entered in a non-fault, non-initializing state. -/
def preFaultCtrl (c : ABSControl) (v : ℚ) (sensors : List SensorData) : ABSControl :=
  checkForSystemFaults (updateVehicleReferenceSpeed c sensors v) sensors

/-- The controller reached after the state-transition step of a `processBraking`
cycle (still before the per-wheel logic). -/
def postTransCtrl (c : ABSControl) (v : ℚ) (sensors : List SensorData) (pedal : ℚ) :
    ABSControl :=
  transitionStep (preFaultCtrl c v sensors) pedal

/-- One external input batch for a `processBraking` cycle. -/
structure CycleInput where
  hint : ℚ
  sensors : List SensorData
  pedal : ℚ
deriving DecidableEq, Repr

/-- A sequence of `processBraking` cycles. -/
def runCycles (c : ABSControl) (ins : List CycleInput) : ABSControl :=
  ins.foldl (fun a i => processBraking a i.hint i.sensors i.pedal) c

/-- The accumulators of the sensor loop of `updateVehicleReferenceSpeed` as a
function of the sensor batch alone (they agree with `sensorLoopStats` whenever
the batch is not longer than the wheel list). -/
def statsOfInput : List SensorData → ℚ × Nat × ℚ
  | [] => (0, 0, 0)
  | s :: ss =>
    let r := statsOfInput ss
    if 0 ≤ s.value then (r.1 + s.value, r.2.1 + 1, max r.2.2 s.value) else r

/-- The reference speed produced by `updateVehicleReferenceSpeed` as a function
of the sensor batch and the hint alone (valid when the batch is not longer than
the wheel list). -/
def refOf (sensors : List SensorData) (hint : ℚ) : ℚ :=
  let stats := statsOfInput sensors
  let ref :=
    if 0 < stats.2.1 then
      let avg := stats.1 / (stats.2.1 : ℚ)
      let blended := if 0 < hint ∧ |hint - avg| < 20 then (hint + avg) / 2 else avg
      if blended < stats.2.2 ∧ 5 < blended then (blended + stats.2.2) / 2 else blended
    else 0
  min ref 300

/-- A nominal intervention-free cycle input: four well-formed sensor readings,
no fault raised, the entry condition (reference speed above 10 km/h and pedal
pressure above 20 bar) holds, and no reading trips the lockup detector. -/
def CleanInput (i : CycleInput) : Prop :=
  i.sensors.length = 4 ∧
  scanSensors 0 i.sensors = .ok 4 ∧
  10 < refOf i.sensors i.hint ∧
  20 < i.pedal ∧
  ∀ s ∈ i.sensors, lockupCheck (refOf i.sensors i.hint) s.value = false

deriving instance DecidableEq for Except

instance : DecidablePred CleanInput := by
  intro i
  unfold CleanInput
  infer_instance

/-- The list of valid (`value >= 0`) readings inspected by the sensor loop of
`updateVehicleReferenceSpeed` (readings beyond the wheel list are ignored, as
in the source's loop bound). -/
def validValues : List SensorData → List WheelSensorData → List ℚ
  | [], _ => []
  | _, [] => []
  | s :: ss, _ :: wds =>
    if 0 ≤ s.value then s.value :: validValues ss wds else validValues ss wds

/-- The reference-speed estimate as worded by spec §4.1, for comparison with
the code (claim C8): the arithmetic mean of the valid readings, blended 50/50
with the vehicle-speed hint when the hint is present (positive) and within
20 km/h of the mean, then replaced by the midpoint of itself and the maximum
valid wheel speed when that maximum exceeds the estimate and the estimate
exceeds 5 km/h. -/
def specReferenceEstimate (vs : List ℚ) (hint : ℚ) : ℚ :=
  let mean := vs.sum / (vs.length : ℚ)
  let blended := if 0 < hint ∧ |hint - mean| < 20 then (hint + mean) / 2 else mean
  let vmax := vs.foldr max 0
  if blended < vmax ∧ 5 < blended then (blended + vmax) / 2 else blended

/-! ### Concrete fixtures -/

/-- Four freshly initialised wheels (`initialize()` pushes `{i, 0.0, false, 0.0}`). -/
def wheels0 : List WheelSensorData :=
  [⟨0, 0, false, 0⟩, ⟨1, 0, false, 0⟩, ⟨2, 0, false, 0⟩, ⟨3, 0, false, 0⟩]

/-- An idle controller: `INACTIVE`, fresh wheels, no fault. -/
def cInactive : ABSControl := ⟨INACTIVE, wheels0, 0, 0, 0⟩

/-- A faulted controller (fault code 7). -/
def cFaulted : ABSControl := ⟨FAULT_DETECTED, wheels0, 0, 0, 7⟩

/-- A controller still in `INITIALIZING`. -/
def cInitializing : ABSControl := ⟨INITIALIZING, wheels0, 0, 0, 0⟩

/-- A controller in `INTERVENING` with a fresh intervention counter. -/
def cIntervening : ABSControl := ⟨INTERVENING, wheels0, 50, 0, 0⟩

/-- A sensor batch whose wheel-2 reading is the out-of-range 400 km/h. -/
def sensors400 : List SensorData := [⟨0, 50⟩, ⟨1, 50⟩, ⟨2, 400⟩, ⟨3, 50⟩]

/-- A braking batch with wheel 3 locking (slip ≈ 0.25) and wheel 2 in the
15–20 % slip band (slip ≈ 0.166). -/
def sensorsSlip : List SensorData := [⟨0, 100⟩, ⟨1, 100⟩, ⟨2, 78⟩, ⟨3, 70⟩]

/-- A batch whose four readings are all invalid (−5 km/h: negative beyond the
−1 km/h validity tolerance yet inside the ±10 gross-range check). -/
def sensorsAllInvalid : List SensorData := [⟨0, -5⟩, ⟨1, -5⟩, ⟨2, -5⟩, ⟨3, -5⟩]

/-- A hard-braking batch with wheel 2 locking (70 km/h against reference ≈ 96). -/
def sensorsLock : List SensorData := [⟨0, 100⟩, ⟨1, 100⟩, ⟨2, 70⟩, ⟨3, 100⟩]

/-- A crawling batch: every wheel at 2 km/h, so the reference speed drops to 2. -/
def sensorsSlow : List SensorData := [⟨0, 2⟩, ⟨1, 2⟩, ⟨2, 2⟩, ⟨3, 2⟩]

/-- A steady 50 km/h batch. -/
def sensors50 : List SensorData := [⟨0, 50⟩, ⟨1, 50⟩, ⟨2, 50⟩, ⟨3, 50⟩]

/-- A nominal clean cycle input: 50 km/h everywhere, 30 bar pedal pressure. -/
def cleanInp : CycleInput := ⟨0, sensors50, 30⟩

/-! ### Basic lemmas about the embedded operations -/

theorem clampPressure_nonneg (p : ℚ) : 0 ≤ clampPressure p := le_max_left 0 _

theorem clampPressure_le (p : ℚ) : clampPressure p ≤ 200 :=
  max_le (by norm_num) (min_le_right p 200)

theorem clampPressure_idem (p : ℚ) : clampPressure (clampPressure p) = clampPressure p := by
  have h1 := clampPressure_nonneg p
  have h2 := clampPressure_le p
  show max 0 (min (clampPressure p) 200) = clampPressure p
  rw [min_eq_left h2, max_eq_right h1]

theorem updateWheelSpeeds_length (wds : List WheelSensorData) (ss : List SensorData) :
    (updateWheelSpeeds wds ss).length = wds.length := by
  induction wds generalizing ss with
  | nil => cases ss <;> simp [updateWheelSpeeds]
  | cons wd wds ih => cases ss <;> simp [updateWheelSpeeds, ih]

theorem updateWheelSpeeds_pressures (wds : List WheelSensorData) (ss : List SensorData) :
    (updateWheelSpeeds wds ss).map (·.applied_brake_pressure_bar) =
      wds.map (·.applied_brake_pressure_bar) := by
  induction wds generalizing ss with
  | nil => cases ss <;> simp [updateWheelSpeeds]
  | cons wd wds ih => cases ss <;> simp [updateWheelSpeeds, ih]

theorem updateWheelSpeeds_flags (wds : List WheelSensorData) (ss : List SensorData) :
    (updateWheelSpeeds wds ss).map (·.is_locking) = wds.map (·.is_locking) := by
  induction wds generalizing ss with
  | nil => cases ss <;> simp [updateWheelSpeeds]
  | cons wd wds ih => cases ss <;> simp [updateWheelSpeeds, ih]

theorem updateWheelSpeeds_speed_mem (wds : List WheelSensorData) (ss : List SensorData)
    (hle : wds.length ≤ ss.length) :
    ∀ w ∈ updateWheelSpeeds wds ss, ∃ s ∈ ss, w.speed_kmh = s.value := by
  induction wds generalizing ss with
  | nil => cases ss <;> simp [updateWheelSpeeds]
  | cons wd wds ih =>
    cases ss with
    | nil => simp at hle
    | cons s ss =>
      intro w hw
      rcases List.mem_cons.1 hw with h | h
      · exact ⟨s, List.mem_cons_self .., by rw [h]⟩
      · rcases ih ss (by simpa using hle) w h with ⟨s', hs', he⟩
        exact ⟨s', List.mem_cons_of_mem _ hs', he⟩

theorem setAllPressures_length (pedal : ℚ) (wds : List WheelSensorData) :
    (setAllPressures pedal wds).length = wds.length := by
  simp [setAllPressures]

theorem setAllPressures_flags (pedal : ℚ) (wds : List WheelSensorData) :
    (setAllPressures pedal wds).map (·.is_locking) = wds.map (·.is_locking) := by
  simp [setAllPressures, setWheelPressure, List.map_map]

theorem setAllPressures_mem (pedal : ℚ) (wds : List WheelSensorData) :
    ∀ w ∈ setAllPressures pedal wds, w.applied_brake_pressure_bar = pedal := by
  intro w hw
  rcases List.mem_map.1 hw with ⟨w0, _, he⟩
  rw [← he]
  rfl

theorem clampWheels_length (wds : List WheelSensorData) :
    (clampWheels wds).length = wds.length := by
  simp [clampWheels]

theorem clampWheels_flags (wds : List WheelSensorData) :
    (clampWheels wds).map (·.is_locking) = wds.map (·.is_locking) := by
  simp [clampWheels, clampWheel, List.map_map]

theorem clampWheels_mem (wds : List WheelSensorData) :
    ∀ w ∈ clampWheels wds,
      0 ≤ w.applied_brake_pressure_bar ∧ w.applied_brake_pressure_bar ≤ 200 := by
  intro w hw
  rcases List.mem_map.1 hw with ⟨w0, _, he⟩
  rw [← he]
  exact ⟨clampPressure_nonneg _, clampPressure_le _⟩

theorem modulateBrakePressure_flag (ref : ℚ) (wd : WheelSensorData) :
    (modulateBrakePressure ref wd).is_locking = wd.is_locking := by
  unfold modulateBrakePressure releasePressure holdPressure reapplyPressure
  split_ifs <;> rfl

theorem modulationWheel_flag (ref pedal : ℚ) (wd : WheelSensorData) :
    (modulationWheel ref pedal wd).is_locking = wd.is_locking := by
  unfold modulationWheel
  split_ifs with h
  · exact modulateBrakePressure_flag ref wd
  · rfl

theorem modulationPass_flags (ref pedal : ℚ) (wds : List WheelSensorData) :
    (modulationPass ref pedal wds).map (·.is_locking) = wds.map (·.is_locking) := by
  unfold modulationPass
  rw [List.map_map]
  apply List.map_congr_left
  intro wd _
  exact modulationWheel_flag ref pedal wd

theorem modulationPass_length (ref pedal : ℚ) (wds : List WheelSensorData) :
    (modulationPass ref pedal wds).length = wds.length := by
  simp [modulationPass]

theorem recoveryWheel_flag (pedal : ℚ) (wd : WheelSensorData) :
    (recoveryWheel pedal wd).is_locking = wd.is_locking := by
  unfold recoveryWheel
  split_ifs <;> rfl

theorem recoveryPass_flags (pedal : ℚ) (wds : List WheelSensorData) :
    (recoveryPass pedal wds).map (·.is_locking) = wds.map (·.is_locking) := by
  unfold recoveryPass
  rw [List.map_map]
  apply List.map_congr_left
  intro wd _
  exact recoveryWheel_flag pedal wd

theorem recoveryPass_length (pedal : ℚ) (wds : List WheelSensorData) :
    (recoveryPass pedal wds).length = wds.length := by
  simp [recoveryPass]

theorem analyzeWheels_length (st : ABSState) (ref pedal : ℚ) (wds : List WheelSensorData) :
    (analyzeWheels st ref pedal wds).length = wds.length := by
  simp [analyzeWheels]

theorem analyzeWheel_flag (st : ABSState) (ref pedal : ℚ) (wd : WheelSensorData) :
    (analyzeWheel st ref pedal wd).is_locking = lockupCheck ref wd.speed_kmh := by
  unfold analyzeWheel detectWheelLockup
  split_ifs <;> rfl

theorem analyzeWheels_flags (st : ABSState) (ref pedal : ℚ) (wds : List WheelSensorData) :
    (analyzeWheels st ref pedal wds).map (·.is_locking) =
      wds.map (fun wd => lockupCheck ref wd.speed_kmh) := by
  unfold analyzeWheels
  rw [List.map_map]
  apply List.map_congr_left
  intro wd _
  exact analyzeWheel_flag st ref pedal wd

theorem updateVehicleReferenceSpeed_state (c : ABSControl) (ss : List SensorData) (v : ℚ) :
    (updateVehicleReferenceSpeed c ss v).current_abs_state_ = c.current_abs_state_ := rfl

theorem updateVehicleReferenceSpeed_fault (c : ABSControl) (ss : List SensorData) (v : ℚ) :
    (updateVehicleReferenceSpeed c ss v).fault_code_ = c.fault_code_ := rfl

theorem updateVehicleReferenceSpeed_wheels (c : ABSControl) (ss : List SensorData) (v : ℚ) :
    (updateVehicleReferenceSpeed c ss v).wheel_data_ = updateWheelSpeeds c.wheel_data_ ss := rfl

theorem checkForSystemFaults_wheels (c : ABSControl) (ss : List SensorData) :
    (checkForSystemFaults c ss).wheel_data_ = c.wheel_data_ := by
  unfold checkForSystemFaults
  cases scanSensors 0 ss with
  | error code => rfl
  | ok n => dsimp only; split_ifs <;> rfl

theorem checkForSystemFaults_ref (c : ABSControl) (ss : List SensorData) :
    (checkForSystemFaults c ss).vehicle_reference_speed_kmh_ =
      c.vehicle_reference_speed_kmh_ := by
  unfold checkForSystemFaults
  cases scanSensors 0 ss with
  | error code => rfl
  | ok n => dsimp only; split_ifs <;> rfl

theorem transitionStep_wheels (c : ABSControl) (pedal : ℚ) :
    (transitionStep c pedal).wheel_data_ = c.wheel_data_ := by
  unfold transitionStep
  split_ifs <;> rfl

theorem transitionStep_ref (c : ABSControl) (pedal : ℚ) :
    (transitionStep c pedal).vehicle_reference_speed_kmh_ =
      c.vehicle_reference_speed_kmh_ := by
  unfold transitionStep
  split_ifs <;> rfl

theorem transitionStep_fault (c : ABSControl) (pedal : ℚ) :
    (transitionStep c pedal).fault_code_ = c.fault_code_ := by
  unfold transitionStep
  split_ifs <;> rfl

theorem mainPhase_ref (c : ABSControl) (pedal : ℚ) :
    (mainPhase c pedal).vehicle_reference_speed_kmh_ =
      c.vehicle_reference_speed_kmh_ := by
  simp only [mainPhase]
  split_ifs <;> simp [transitionStep_ref]

theorem mainPhase_fault (c : ABSControl) (pedal : ℚ) :
    (mainPhase c pedal).fault_code_ = c.fault_code_ := by
  simp only [mainPhase]
  split_ifs <;> simp [transitionStep_fault]

theorem lockupCheck_of_lt5 (r s : ℚ) (h : r < 5) : lockupCheck r s = false := by
  unfold lockupCheck
  rw [if_pos h]

theorem lockupCheck_ge5 (r s : ℚ) (h : lockupCheck r s = true) : 5 ≤ r := by
  by_contra hlt
  rw [lockupCheck_of_lt5 r s (lt_of_not_le hlt)] at h
  cases h

theorem sensorLoopStats_eq_statsOfInput (ss : List SensorData) (wds : List WheelSensorData)
    (hle : ss.length ≤ wds.length) : sensorLoopStats ss wds = statsOfInput ss := by
  induction ss generalizing wds with
  | nil => cases wds <;> rfl
  | cons s ss ih =>
    cases wds with
    | nil => simp at hle
    | cons w wds =>
      simp only [sensorLoopStats, statsOfInput]
      rw [ih wds (by simpa using hle)]

theorem updateVehicleReferenceSpeed_ref_of_le (c : ABSControl) (ss : List SensorData)
    (v : ℚ) (hle : ss.length ≤ c.wheel_data_.length) :
    (updateVehicleReferenceSpeed c ss v).vehicle_reference_speed_kmh_ = refOf ss v := by
  unfold updateVehicleReferenceSpeed refOf
  rw [sensorLoopStats_eq_statsOfInput ss c.wheel_data_ hle]

theorem sensorLoopStats_eq_validValues (ss : List SensorData) (wds : List WheelSensorData) :
    sensorLoopStats ss wds =
      ((validValues ss wds).sum, (validValues ss wds).length,
        (validValues ss wds).foldr max 0) := by
  induction ss generalizing wds with
  | nil => cases wds <;> rfl
  | cons s ss ih =>
    cases wds with
    | nil => rfl
    | cons w wds =>
      simp only [sensorLoopStats, validValues, ih wds]
      split_ifs with h
      · simp [add_comm, max_comm]
      · rfl

theorem validValues_nonneg (ss : List SensorData) (wds : List WheelSensorData) :
    ∀ x ∈ validValues ss wds, 0 ≤ x := by
  induction ss generalizing wds with
  | nil => cases wds <;> simp [validValues]
  | cons s ss ih =>
    cases wds with
    | nil => simp [validValues]
    | cons w wds =>
      simp only [validValues]
      split_ifs with h
      · intro x hx
        rcases List.mem_cons.1 hx with rfl | hx
        · exact h
        · exact ih wds x hx
      · exact ih wds

theorem foldr_max_nonneg (vs : List ℚ) : 0 ≤ vs.foldr max 0 := by
  induction vs with
  | nil => exact le_refl 0
  | cons a vs ih => exact le_trans ih (le_max_right a _)

/-- The sensor loop ignores every reading when all readings are negative. -/
theorem sensorLoopStats_all_invalid (ss : List SensorData) (wds : List WheelSensorData)
    (h : ∀ s ∈ ss, s.value < 0) : sensorLoopStats ss wds = (0, 0, 0) := by
  induction ss generalizing wds with
  | nil => cases wds <;> rfl
  | cons s ss ih =>
    cases wds with
    | nil => rfl
    | cons w wds =>
      simp only [sensorLoopStats]
      rw [if_neg (not_le.2 (h s (List.mem_cons_self ..)))]
      exact ih wds fun x hx => h x (List.mem_cons_of_mem _ hx)

/-- If the lockup check rejects every (updated) wheel speed, the analysis loop
flags no wheel. -/
theorem analyzeWheels_any_of_all_false (st : ABSState) (r pedal : ℚ)
    (wds : List WheelSensorData)
    (h : ∀ wd ∈ wds, lockupCheck r wd.speed_kmh = false) :
    (analyzeWheels st r pedal wds).any (·.is_locking) = false := by
  rw [List.any_eq_false]
  intro x hx
  rcases List.mem_map.1 hx with ⟨wd, hwd, rfl⟩
  rw [analyzeWheel_flag, h wd hwd]
  exact Bool.false_ne_true

/-- Below 5 km/h of reference speed the analysis loop flags no wheel. -/
theorem analyzeWheels_any_low (st : ABSState) (r pedal : ℚ) (wds : List WheelSensorData)
    (hr : r < 5) : (analyzeWheels st r pedal wds).any (·.is_locking) = false :=
  analyzeWheels_any_of_all_false st r pedal wds fun wd _ =>
    lockupCheck_of_lt5 r wd.speed_kmh hr

/-- When the entry condition fails and the reference speed is below 5 km/h,
the main phase always ends `INACTIVE` (from any non-fault working state). -/
theorem mainPhase_inactive_of_low (c : ABSControl) (pedal : ℚ)
    (hst : c.current_abs_state_ = INACTIVE ∨ c.current_abs_state_ = MONITORING ∨
      c.current_abs_state_ = INTERVENING)
    (hnp : ¬(10 < c.vehicle_reference_speed_kmh_ ∧ 20 < pedal))
    (hr5 : c.vehicle_reference_speed_kmh_ < 5) :
    (mainPhase c pedal).current_abs_state_ = INACTIVE := by
  rcases hst with h | h | h
  · have ht : transitionStep c pedal = c := by
      unfold transitionStep
      rw [if_neg, if_neg]
      · rintro ⟨hpot, _⟩
        exact hnp hpot
      · rintro ⟨_, hcon⟩
        rw [h] at hcon
        exact ABSState.noConfusion hcon
    simp only [mainPhase, ht]
    rw [if_neg (by rw [h]; simp)]
    rw [h]
  · have ht : transitionStep c pedal = c := by
      unfold transitionStep
      rw [if_neg, if_neg]
      · rintro ⟨hpot, _⟩
        exact hnp hpot
      · rintro ⟨_, hcon⟩
        rw [h] at hcon
        exact ABSState.noConfusion hcon
    simp only [mainPhase, ht]
    rw [if_pos (Or.inl h),
      analyzeWheels_any_low c.current_abs_state_ c.vehicle_reference_speed_kmh_ pedal
        c.wheel_data_ hr5]
    rw [if_neg (by simp)]
    rw [if_neg (by rw [h]; simp)]
    rw [if_neg hnp]
  · have ht : transitionStep c pedal =
        { c with current_abs_state_ := INACTIVE, cycles_since_last_intervention_ := 0 } := by
      unfold transitionStep
      rw [if_pos ⟨hnp, h⟩]
    simp only [mainPhase, ht]
    rw [if_neg (by simp)]

/-- `clampWheel` keeps the locking flag. -/
theorem clampWheel_flag (wd : WheelSensorData) : (clampWheel wd).is_locking = wd.is_locking :=
  rfl

/-- A wheel list whose flags are the lockup checks of some list is flag-free
below 5 km/h. -/
theorem all_flags_false_of_map (wds wds0 : List WheelSensorData) (r : ℚ) (hr : r < 5)
    (h : wds.map (·.is_locking) = wds0.map fun wd => lockupCheck r wd.speed_kmh) :
    ∀ w ∈ wds, w.is_locking = false := by
  intro w hw
  have hmem : w.is_locking ∈ wds.map (·.is_locking) := List.mem_map_of_mem _ hw
  rw [h] at hmem
  rcases List.mem_map.1 hmem with ⟨wd0, _, he⟩
  rw [← he]
  exact lockupCheck_of_lt5 r wd0.speed_kmh hr

/-- Below 5 km/h of reference speed, the main phase either leaves the locking
flags untouched (pass-through paths) or recomputes them all to `false`. -/
theorem mainPhase_flags_low (c : ABSControl) (pedal : ℚ)
    (hr : c.vehicle_reference_speed_kmh_ < 5) :
    (mainPhase c pedal).wheel_data_.map (·.is_locking) =
        c.wheel_data_.map (·.is_locking) ∨
    ∀ w ∈ (mainPhase c pedal).wheel_data_, w.is_locking = false := by
  have hrT : (transitionStep c pedal).vehicle_reference_speed_kmh_ < 5 := by
    rw [transitionStep_ref]
    exact hr
  by_cases hb : (transitionStep c pedal).current_abs_state_ = MONITORING ∨
      (transitionStep c pedal).current_abs_state_ = INTERVENING
  · right
    simp only [mainPhase]
    rw [if_pos hb,
      analyzeWheels_any_low (transitionStep c pedal).current_abs_state_
        (transitionStep c pedal).vehicle_reference_speed_kmh_ pedal
        (transitionStep c pedal).wheel_data_ hrT]
    rw [if_neg (by simp)]
    by_cases hInt : (transitionStep c pedal).current_abs_state_ = INTERVENING
    · rw [if_pos hInt]
      split_ifs with hcount <;>
        exact all_flags_false_of_map
          (recoveryPass pedal (analyzeWheels (transitionStep c pedal).current_abs_state_
            (transitionStep c pedal).vehicle_reference_speed_kmh_ pedal
            (transitionStep c pedal).wheel_data_))
          (transitionStep c pedal).wheel_data_ _ hrT
          (by rw [recoveryPass_flags, analyzeWheels_flags])
    · rw [if_neg hInt]
      exact all_flags_false_of_map
        (setAllPressures pedal (analyzeWheels (transitionStep c pedal).current_abs_state_
          (transitionStep c pedal).vehicle_reference_speed_kmh_ pedal
          (transitionStep c pedal).wheel_data_))
        (transitionStep c pedal).wheel_data_ _ hrT
        (by rw [setAllPressures_flags, analyzeWheels_flags])
  · left
    simp only [mainPhase]
    rw [if_neg hb]
    show (setAllPressures pedal (transitionStep c pedal).wheel_data_).map (·.is_locking) = _
    rw [setAllPressures_flags, transitionStep_wheels]

/-! ### Claim C7 -/

/-- C7's second half is false as frozen: starting idle, a first braking cycle
(100/100/70/100 km/h, 50 bar) flags wheel 2 and enters `INTERVENING`; a second
cycle at crawling speed computes reference speed 2 km/h (< 5), drops to
`INACTIVE` without running the per-wheel analysis, and wheel 2's stale
`is_locking` flag survives that low-reference-speed cycle. -/
theorem C7_counterexample :
    (processBraking (processBraking cInactive 0 sensorsLock 50) 0 sensorsSlow
        50).vehicle_reference_speed_kmh_ = 2 ∧
    ((2 : ℚ) < 5) ∧
    (processBraking (processBraking cInactive 0 sensorsLock 50) 0 sensorsSlow
        50).wheel_data_.map (·.is_locking) = [false, false, true, false] := by
  with_unfolding_all decide

/-- C7 (amended): whenever the cycle's reference speed is below 5 km/h, the
lockup detector returns `false` for every wheel, so `processBraking` never
newly flags a wheel in such a cycle: the returned flags are either exactly the
entry flags (on the paths that skip the per-wheel analysis) or all `false`.
A flag set by an earlier cycle can survive, as `C7_counterexample` shows. -/
theorem C7_low_speed_no_lockup :
    (∀ (r : ℚ) (w : WheelSensorData), r < 5 → detectWheelLockup r w = false) ∧
    ∀ (c : ABSControl) (v pedal : ℚ) (ss : List SensorData),
      (updateVehicleReferenceSpeed c ss v).vehicle_reference_speed_kmh_ < 5 →
      ((processBraking c v ss pedal).wheel_data_.map (·.is_locking) =
          c.wheel_data_.map (·.is_locking) ∨
        ∀ w ∈ (processBraking c v ss pedal).wheel_data_, w.is_locking = false) := by
  constructor
  · intro r w hr
    exact lockupCheck_of_lt5 r w.speed_kmh hr
  · intro c v pedal ss hr
    by_cases h1 : c.current_abs_state_ = FAULT_DETECTED
    · left
      have key : processBraking c v ss pedal =
          { c with wheel_data_ := setAllPressures pedal c.wheel_data_ } := by
        unfold processBraking
        rw [if_pos h1]
      rw [key]
      show (setAllPressures pedal c.wheel_data_).map (·.is_locking) = _
      exact setAllPressures_flags pedal c.wheel_data_
    · by_cases h2 : c.current_abs_state_ = INITIALIZING
      · left
        have key : processBraking c v ss pedal = c := by
          unfold processBraking
          rw [if_neg h1, if_pos h2]
        rw [key]
      · by_cases h3 : (checkForSystemFaults (updateVehicleReferenceSpeed c ss v)
            ss).current_abs_state_ = FAULT_DETECTED
        · left
          have key : processBraking c v ss pedal =
              checkForSystemFaults (updateVehicleReferenceSpeed c ss v) ss := by
            unfold processBraking
            rw [if_neg h1, if_neg h2]
            dsimp only
            rw [if_pos h3]
          rw [key, checkForSystemFaults_wheels, updateVehicleReferenceSpeed_wheels,
            updateWheelSpeeds_flags]
        · have key : processBraking c v ss pedal =
              (fun c4 => { c4 with wheel_data_ := clampWheels c4.wheel_data_ })
                (mainPhase (checkForSystemFaults (updateVehicleReferenceSpeed c ss v) ss)
                  pedal) := by
            unfold processBraking
            rw [if_neg h1, if_neg h2]
            dsimp only
            rw [if_neg h3]
          have hr2 : (checkForSystemFaults (updateVehicleReferenceSpeed c ss v)
              ss).vehicle_reference_speed_kmh_ < 5 := by
            rw [checkForSystemFaults_ref]
            exact hr
          rcases mainPhase_flags_low
              (checkForSystemFaults (updateVehicleReferenceSpeed c ss v) ss) pedal hr2 with
            hcase | hcase
          · left
            rw [key]
            show (clampWheels (mainPhase (checkForSystemFaults
              (updateVehicleReferenceSpeed c ss v) ss) pedal).wheel_data_).map
                (·.is_locking) = _
            rw [clampWheels_flags, hcase, checkForSystemFaults_wheels,
              updateVehicleReferenceSpeed_wheels, updateWheelSpeeds_flags]
          · right
            rw [key]
            intro w hw
            rcases List.mem_map.1 hw with ⟨w0, hw0, he⟩
            rw [← he, clampWheel_flag]
            exact hcase w0 hw0

/-- Witness for C7 (amended), first conjunct: at reference speed 3 km/h a
stopped wheel is not flagged. -/
theorem C7_witness : detectWheelLockup 3 ⟨0, 0, false, 0⟩ = false :=
  C7_low_speed_no_lockup.1 3 ⟨0, 0, false, 0⟩ (by norm_num)

/-! ### Claim C4 -/

/-- C4 as frozen is false: entered `INACTIVE` with all four readings at −5 km/h
(invalid beyond the −1 km/h tolerance, inside the gross ±10 check), the
reference speed does fall back to 0, but no fault is raised: the cycle ends
`INACTIVE` with fault code 0, not `FAULT_DETECTED` with code 30. -/
theorem C4_counterexample :
    (processBraking cInactive 0 sensorsAllInvalid 100).current_abs_state_ = INACTIVE ∧
    (processBraking cInactive 0 sensorsAllInvalid 100).fault_code_ = 0 ∧
    (processBraking cInactive 0 sensorsAllInvalid 100).vehicle_reference_speed_kmh_ = 0 := by
  with_unfolding_all decide

/-- C4 (amended): entered in `INACTIVE`, `MONITORING` or `INTERVENING` with
four readings that are all invalid (each value in [−10, −1)), the reference
speed falls back to 0 and no fault is flagged: fault 30 requires a reference
speed above 10 km/h at check time, which the preceding reference update has
just zeroed, so the cycle ends `INACTIVE` with the fault code unchanged. -/
theorem C4_all_invalid (c : ABSControl) (v pedal : ℚ) (s0 s1 s2 s3 : SensorData)
    (hst : c.current_abs_state_ = INACTIVE ∨ c.current_abs_state_ = MONITORING ∨
      c.current_abs_state_ = INTERVENING)
    (h0 : s0.id = 0) (h1 : s1.id = 1) (h2 : s2.id = 2) (h3 : s3.id = 3)
    (hv : ∀ s ∈ [s0, s1, s2, s3], -10 ≤ s.value ∧ s.value < -1) :
    (processBraking c v [s0, s1, s2, s3] pedal).vehicle_reference_speed_kmh_ = 0 ∧
    (processBraking c v [s0, s1, s2, s3] pedal).current_abs_state_ = INACTIVE ∧
    (processBraking c v [s0, s1, s2, s3] pedal).fault_code_ = c.fault_code_ := by
  have hne1 : c.current_abs_state_ ≠ FAULT_DETECTED := by
    rcases hst with h | h | h <;> simp [h]
  have hne2 : c.current_abs_state_ ≠ INITIALIZING := by
    rcases hst with h | h | h <;> simp [h]
  have hs0 := hv s0 (by simp)
  have hs1 := hv s1 (by simp)
  have hs2 := hv s2 (by simp)
  have hs3 := hv s3 (by simp)
  have hstats : sensorLoopStats [s0, s1, s2, s3] c.wheel_data_ = (0, 0, 0) := by
    apply sensorLoopStats_all_invalid
    intro s hs
    exact lt_trans (hv s hs).2 (by norm_num)
  have hup : updateVehicleReferenceSpeed c [s0, s1, s2, s3] v =
      { c with wheel_data_ := updateWheelSpeeds c.wheel_data_ [s0, s1, s2, s3],
               vehicle_reference_speed_kmh_ := 0 } := by
    unfold updateVehicleReferenceSpeed
    rw [hstats]
    dsimp only
    rw [if_neg (lt_irrefl 0), min_eq_left (by norm_num : (0 : ℚ) ≤ 300)]
  have g0 : ¬(s0.value < -10 ∨ 350 < s0.value) := by
    push_neg
    exact ⟨hs0.1, le_trans (le_of_lt hs0.2) (by norm_num)⟩
  have g1 : ¬(s1.value < -10 ∨ 350 < s1.value) := by
    push_neg
    exact ⟨hs1.1, le_trans (le_of_lt hs1.2) (by norm_num)⟩
  have g2 : ¬(s2.value < -10 ∨ 350 < s2.value) := by
    push_neg
    exact ⟨hs2.1, le_trans (le_of_lt hs2.2) (by norm_num)⟩
  have g3 : ¬(s3.value < -10 ∨ 350 < s3.value) := by
    push_neg
    exact ⟨hs3.1, le_trans (le_of_lt hs3.2) (by norm_num)⟩
  have b0 : ¬(-1 ≤ s0.value) := not_le.2 hs0.2
  have b1 : ¬(-1 ≤ s1.value) := not_le.2 hs1.2
  have b2 : ¬(-1 ≤ s2.value) := not_le.2 hs2.2
  have b3 : ¬(-1 ≤ s3.value) := not_le.2 hs3.2
  have hscan : scanSensors 0 [s0, s1, s2, s3] = .ok 0 := by
    norm_num [scanSensors, h0, h1, h2, h3, g0, g1, g2, g3, b0, b1, b2, b3]
  have hcheck : checkForSystemFaults
      { c with wheel_data_ := updateWheelSpeeds c.wheel_data_ [s0, s1, s2, s3],
               vehicle_reference_speed_kmh_ := 0 } [s0, s1, s2, s3] =
      { c with wheel_data_ := updateWheelSpeeds c.wheel_data_ [s0, s1, s2, s3],
               vehicle_reference_speed_kmh_ := 0 } := by
    unfold checkForSystemFaults
    rw [hscan]
    dsimp only
    rw [if_neg]
    rintro ⟨_, hcon⟩
    exact (by norm_num : ¬(10 : ℚ) < 0) hcon
  have hkey : processBraking c v [s0, s1, s2, s3] pedal =
      (fun c4 => { c4 with wheel_data_ := clampWheels c4.wheel_data_ })
        (mainPhase
          { c with wheel_data_ := updateWheelSpeeds c.wheel_data_ [s0, s1, s2, s3],
                   vehicle_reference_speed_kmh_ := 0 } pedal) := by
    unfold processBraking
    rw [if_neg hne1, if_neg hne2]
    dsimp only
    rw [hup, hcheck, if_neg (show ¬({ c with
      wheel_data_ := updateWheelSpeeds c.wheel_data_ [s0, s1, s2, s3],
      vehicle_reference_speed_kmh_ := 0 } :
        ABSControl).current_abs_state_ = FAULT_DETECTED from hne1)]
  rw [hkey]
  refine ⟨?_, ?_, ?_⟩
  · show (mainPhase { c with
      wheel_data_ := updateWheelSpeeds c.wheel_data_ [s0, s1, s2, s3],
      vehicle_reference_speed_kmh_ := 0 } pedal).vehicle_reference_speed_kmh_ = 0
    rw [mainPhase_ref]
  · show (mainPhase { c with
      wheel_data_ := updateWheelSpeeds c.wheel_data_ [s0, s1, s2, s3],
      vehicle_reference_speed_kmh_ := 0 } pedal).current_abs_state_ = INACTIVE
    apply mainPhase_inactive_of_low
    · exact hst
    · rintro ⟨hcon, _⟩
      exact (by norm_num : ¬(10 : ℚ) < 0) hcon
    · norm_num
  · show (mainPhase { c with
      wheel_data_ := updateWheelSpeeds c.wheel_data_ [s0, s1, s2, s3],
      vehicle_reference_speed_kmh_ := 0 } pedal).fault_code_ = c.fault_code_
    rw [mainPhase_fault]

/-- Witness for C4 (amended) at the concrete all-invalid batch. -/
theorem C4_witness :
    (processBraking cInactive 0 [⟨0, -5⟩, ⟨1, -5⟩, ⟨2, -5⟩, ⟨3, -5⟩]
        100).vehicle_reference_speed_kmh_ = 0 ∧
    (processBraking cInactive 0 [⟨0, -5⟩, ⟨1, -5⟩, ⟨2, -5⟩, ⟨3, -5⟩]
        100).current_abs_state_ = INACTIVE ∧
    (processBraking cInactive 0 [⟨0, -5⟩, ⟨1, -5⟩, ⟨2, -5⟩, ⟨3, -5⟩]
        100).fault_code_ = cInactive.fault_code_ :=
  C4_all_invalid cInactive 0 100 ⟨0, -5⟩ ⟨1, -5⟩ ⟨2, -5⟩ ⟨3, -5⟩ (Or.inl rfl)
    rfl rfl rfl rfl (by norm_num)

/-! ### Claim C8 -/

/-- C8: whenever at least one reading is valid (non-negative), the stored
reference speed equals the spec §4.1 estimate — the arithmetic mean of the
valid readings, blended 50/50 with the hint when the hint is present
(positive) and within 20 km/h of the mean, then replaced by the midpoint of
itself and the maximum valid reading when that maximum exceeds it and it
exceeds 5 km/h — capped at 300; and the stored value always lies in [0, 300]. -/
theorem C8_reference (c : ABSControl) (ss : List SensorData) (hint : ℚ) :
    (validValues ss c.wheel_data_ ≠ [] →
      (updateVehicleReferenceSpeed c ss hint).vehicle_reference_speed_kmh_ =
        min (specReferenceEstimate (validValues ss c.wheel_data_) hint) 300) ∧
    0 ≤ (updateVehicleReferenceSpeed c ss hint).vehicle_reference_speed_kmh_ ∧
    (updateVehicleReferenceSpeed c ss hint).vehicle_reference_speed_kmh_ ≤ 300 := by
  have hstats := sensorLoopStats_eq_validValues ss c.wheel_data_
  have h0 : ∀ x ∈ validValues ss c.wheel_data_, 0 ≤ x := validValues_nonneg ss c.wheel_data_
  have hsum : 0 ≤ (validValues ss c.wheel_data_).sum := List.sum_nonneg h0
  have hmax : 0 ≤ (validValues ss c.wheel_data_).foldr max 0 :=
    foldr_max_nonneg (validValues ss c.wheel_data_)
  have havg : 0 ≤ (validValues ss c.wheel_data_).sum /
      ((validValues ss c.wheel_data_).length : ℚ) :=
    div_nonneg hsum (Nat.cast_nonneg _)
  refine ⟨?_, ?_, ?_⟩
  · intro hne
    have hlen : 0 < (validValues ss c.wheel_data_).length := List.length_pos.2 hne
    unfold updateVehicleReferenceSpeed specReferenceEstimate
    rw [hstats]
    dsimp only
    rw [if_pos hlen]
  · unfold updateVehicleReferenceSpeed
    rw [hstats]
    dsimp only
    apply le_min ?_ (by norm_num)
    split_ifs with hl hb1 hb2 hb3
    · have hbl : 0 ≤ (hint + (validValues ss c.wheel_data_).sum /
          ((validValues ss c.wheel_data_).length : ℚ)) / 2 :=
        div_nonneg (add_nonneg hb1.1.le havg) (by norm_num)
      exact div_nonneg (add_nonneg hbl hmax) (by norm_num)
    · exact div_nonneg (add_nonneg hb1.1.le havg) (by norm_num)
    · exact div_nonneg (add_nonneg havg hmax) (by norm_num)
    · exact havg
    · exact le_refl 0
  · unfold updateVehicleReferenceSpeed
    rw [hstats]
    dsimp only
    exact min_le_right _ 300

/-- Witness for C8 at the steady 50 km/h batch: the stored reference speed
matches the spec-side estimate. -/
theorem C8_witness :
    (updateVehicleReferenceSpeed cInactive sensors50 0).vehicle_reference_speed_kmh_ =
      min (specReferenceEstimate (validValues sensors50 cInactive.wheel_data_) 0) 300 :=
  (C8_reference cInactive sensors50 0).1 (by with_unfolding_all decide)

/-- `analyzeWheel` in closed form: the speed and id are kept, the flag becomes
the lockup check, and the pressure becomes the pedal input unless the state is
`INTERVENING` with the wheel already flagged. -/
theorem analyzeWheel_eq (st : ABSState) (r pedal : ℚ) (w : WheelSensorData) :
    analyzeWheel st r pedal w =
      { wheel_id := w.wheel_id, speed_kmh := w.speed_kmh,
        is_locking := lockupCheck r w.speed_kmh,
        applied_brake_pressure_bar :=
          if st = INTERVENING ∧ w.is_locking = true then
            w.applied_brake_pressure_bar
          else pedal } := by
  unfold analyzeWheel detectWheelLockup
  by_cases hst : st = INTERVENING
  · cases hwl : w.is_locking
    · rw [if_pos (Or.inr rfl), if_neg (by simp)]
    · rw [if_neg (by rw [hst]; simp), if_pos ⟨hst, rfl⟩]
  · rw [if_pos (Or.inl hst), if_neg fun hcon => hst hcon.1]

theorem analyzeWheel_speed (st : ABSState) (r pedal : ℚ) (w : WheelSensorData) :
    (analyzeWheel st r pedal w).speed_kmh = w.speed_kmh := by
  rw [analyzeWheel_eq]

theorem analyzeWheel_pressure (st : ABSState) (r pedal : ℚ) (w : WheelSensorData) :
    (analyzeWheel st r pedal w).applied_brake_pressure_bar =
      if st = INTERVENING ∧ w.is_locking = true then w.applied_brake_pressure_bar
      else pedal := by
  rw [analyzeWheel_eq]

/-- Modulation followed by the final clamp on one wheel, for a positive
reference speed: a locking wheel is released by 50 bar floored at 0; a
non-locking wheel whose speed deficit exceeds 15 % of the reference speed is
held (its speed is then below 95 % of the reference speed, so the reapply
branch is unreachable); every other wheel gets the pedal input; all clamped. -/
theorem modulation_clamp_formula (r pedal : ℚ) (hr : 0 < r) (a : WheelSensorData) :
    (clampWheel (modulationWheel r pedal a)).applied_brake_pressure_bar =
      clampPressure
        (if a.is_locking = true then max 0 (a.applied_brake_pressure_bar - 50)
        else if r * (3/20) < r - a.speed_kmh then a.applied_brake_pressure_bar
        else pedal) := by
  by_cases hlk : a.is_locking = true
  · simp only [clampWheel, modulationWheel, modulateBrakePressure, releasePressure,
      holdPressure, reapplyPressure, hlk, eq_self_iff_true, true_or, if_true]
    exact clampPressure_idem _
  · have hlkF : a.is_locking = false := by
      revert hlk
      cases a.is_locking <;> simp
    by_cases hsl : r * (3/20) < r - a.speed_kmh
    · have hspeed : a.speed_kmh < r * (19/20) := by linarith
      simp only [clampWheel, modulationWheel, modulateBrakePressure, releasePressure,
        holdPressure, reapplyPressure, hlkF, Bool.false_eq_true, false_or,
        if_false, hsl, hspeed, if_true]
      exact clampPressure_idem _
    · simp only [clampWheel, modulationWheel, modulateBrakePressure, releasePressure,
        holdPressure, reapplyPressure, hlkF, Bool.false_eq_true, false_or,
        if_false, hsl]

/-- One wheel of analysis, modulation and final clamp, when the reference
speed admits a lockup (≥ 5 km/h): a locking wheel is released by 50 bar from
its pre-modulation pressure (floored at 0); a wheel with a speed deficit above
15 % of the reference speed that is not locking holds its pre-modulation
pressure; every other wheel gets the pedal input; all clamped to [0, 200].
The pre-modulation pressure is the wheel's previous pressure when the cycle is
`INTERVENING` with the wheel already flagged, and the pedal input otherwise. -/
theorem wheel_modulation_formula (st : ABSState) (r pedal : ℚ) (hr : 5 ≤ r)
    (w : WheelSensorData) :
    (clampWheel (modulationWheel r pedal
        (analyzeWheel st r pedal w))).applied_brake_pressure_bar =
      clampPressure
        (if lockupCheck r w.speed_kmh = true then
          max 0 ((if st = INTERVENING ∧ w.is_locking = true then
            w.applied_brake_pressure_bar else pedal) - 50)
        else if r * (3/20) < r - w.speed_kmh then
          (if st = INTERVENING ∧ w.is_locking = true then
            w.applied_brake_pressure_bar else pedal)
        else pedal) := by
  have h := modulation_clamp_formula r pedal (lt_of_lt_of_le (by norm_num) hr)
    (analyzeWheel st r pedal w)
  rw [analyzeWheel_flag, analyzeWheel_speed, analyzeWheel_pressure] at h
  exact h

/-- The main phase when the branch runs and some wheel is flagged: enter
`INTERVENING`, reset the counter, and run the modulation pass over the
analysed wheels. -/
theorem mainPhase_modulating (c : ABSControl) (pedal : ℚ)
    (hbr : (transitionStep c pedal).current_abs_state_ = MONITORING ∨
      (transitionStep c pedal).current_abs_state_ = INTERVENING)
    (hlock : (analyzeWheels (transitionStep c pedal).current_abs_state_
        (transitionStep c pedal).vehicle_reference_speed_kmh_ pedal
        (transitionStep c pedal).wheel_data_).any (·.is_locking) = true) :
    mainPhase c pedal =
      { transitionStep c pedal with
        current_abs_state_ := INTERVENING,
        cycles_since_last_intervention_ := 0,
        wheel_data_ := modulationPass
          (transitionStep c pedal).vehicle_reference_speed_kmh_ pedal
          (analyzeWheels (transitionStep c pedal).current_abs_state_
            (transitionStep c pedal).vehicle_reference_speed_kmh_ pedal
            (transitionStep c pedal).wheel_data_) } := by
  simp only [mainPhase]
  rw [if_pos hbr, if_pos hlock]

/-! ### Claim C3 -/

/-- C3 as frozen is false: in the cycle from idle with readings
100/100/78/70 km/h and a 100 bar pedal, wheel 3 locks (slip ≈ 0.25) and
wheel 2 sits in the 15–20 % slip band (slip ≈ 0.166, third conjunct below)
without being flagged; the claim demands wheel 2's pressure be reduced to
100 − 50 = 50, but the code holds it at 100 (only wheel 3 is released to
50). -/
theorem C3_counterexample :
    (processBraking cInactive 0 sensorsSlip 100).wheel_data_.map
        (·.applied_brake_pressure_bar) = [100, 100, 100, 50] ∧
    (processBraking cInactive 0 sensorsSlip 100).wheel_data_.map (·.is_locking) =
      [false, false, false, true] ∧
    (processBraking cInactive 0 sensorsSlip 100).vehicle_reference_speed_kmh_ * (3/20) <
      (processBraking cInactive 0 sensorsSlip 100).vehicle_reference_speed_kmh_ - 78 ∧
    ¬((100 : ℚ) = max 0 (100 - 50)) := by
  with_unfolding_all decide

/-- C3 (amended): in any `processBraking` cycle that runs the per-wheel branch
and flags at least one wheel, each wheel's final pressure is
`clampPressure` of: the 50 bar release from its pre-modulation pressure
(floored at 0) when the detector flags the wheel; its pre-modulation pressure
held unchanged when its speed deficit exceeds 15 % of the reference speed
without the flag; and the pedal input otherwise.  The pre-modulation pressure
is the wheel's previous pressure when the cycle is in `INTERVENING` with the
wheel already flagged from the previous cycle, and the pedal input otherwise. -/
theorem C3_modulation (c : ABSControl) (v pedal : ℚ) (ss : List SensorData)
    (hne1 : c.current_abs_state_ ≠ FAULT_DETECTED)
    (hne2 : c.current_abs_state_ ≠ INITIALIZING)
    (hok : (preFaultCtrl c v ss).current_abs_state_ ≠ FAULT_DETECTED)
    (hbr : (postTransCtrl c v ss pedal).current_abs_state_ = MONITORING ∨
      (postTransCtrl c v ss pedal).current_abs_state_ = INTERVENING)
    (hlock : (analyzeWheels (postTransCtrl c v ss pedal).current_abs_state_
        (postTransCtrl c v ss pedal).vehicle_reference_speed_kmh_ pedal
        (postTransCtrl c v ss pedal).wheel_data_).any (·.is_locking) = true)
    (i : Nat) (hi : i < (postTransCtrl c v ss pedal).wheel_data_.length) :
    ((processBraking c v ss pedal).wheel_data_.getD i default).applied_brake_pressure_bar =
      clampPressure
        (if lockupCheck (postTransCtrl c v ss pedal).vehicle_reference_speed_kmh_
            ((postTransCtrl c v ss pedal).wheel_data_.getD i default).speed_kmh = true then
          max 0 ((if (postTransCtrl c v ss pedal).current_abs_state_ = INTERVENING ∧
              ((postTransCtrl c v ss pedal).wheel_data_.getD i default).is_locking =
                true then
            ((postTransCtrl c v ss pedal).wheel_data_.getD i
              default).applied_brake_pressure_bar
          else pedal) - 50)
        else if (postTransCtrl c v ss pedal).vehicle_reference_speed_kmh_ * (3/20) <
            (postTransCtrl c v ss pedal).vehicle_reference_speed_kmh_ -
            ((postTransCtrl c v ss pedal).wheel_data_.getD i default).speed_kmh then
          (if (postTransCtrl c v ss pedal).current_abs_state_ = INTERVENING ∧
              ((postTransCtrl c v ss pedal).wheel_data_.getD i default).is_locking =
                true then
            ((postTransCtrl c v ss pedal).wheel_data_.getD i
              default).applied_brake_pressure_bar
          else pedal)
        else pedal) := by
  unfold postTransCtrl preFaultCtrl at hbr hlock hi ⊢
  unfold preFaultCtrl at hok
  have hr5 : 5 ≤ (transitionStep
      (checkForSystemFaults (updateVehicleReferenceSpeed c ss v) ss)
      pedal).vehicle_reference_speed_kmh_ := by
    have h2 := hlock
    rw [List.any_eq_true] at h2
    rcases h2 with ⟨x, hx, hflag⟩
    rcases List.mem_map.1 hx with ⟨w0, _, rfl⟩
    rw [analyzeWheel_flag] at hflag
    exact lockupCheck_ge5 _ _ hflag
  have hkey : processBraking c v ss pedal =
      (fun c4 => { c4 with wheel_data_ := clampWheels c4.wheel_data_ })
        (mainPhase (checkForSystemFaults (updateVehicleReferenceSpeed c ss v) ss)
          pedal) := by
    unfold processBraking
    rw [if_neg hne1, if_neg hne2]
    dsimp only
    rw [if_neg hok]
  have hmain := mainPhase_modulating
    (checkForSystemFaults (updateVehicleReferenceSpeed c ss v) ss) pedal hbr hlock
  rw [hkey]
  dsimp only
  rw [hmain]
  dsimp only
  have hilen : i < (clampWheels (modulationPass
      (transitionStep (checkForSystemFaults (updateVehicleReferenceSpeed c ss v) ss)
        pedal).vehicle_reference_speed_kmh_ pedal
      (analyzeWheels
        (transitionStep (checkForSystemFaults (updateVehicleReferenceSpeed c ss v) ss)
          pedal).current_abs_state_
        (transitionStep (checkForSystemFaults (updateVehicleReferenceSpeed c ss v) ss)
          pedal).vehicle_reference_speed_kmh_ pedal
        (transitionStep (checkForSystemFaults (updateVehicleReferenceSpeed c ss v) ss)
          pedal).wheel_data_))).length := by
    rw [clampWheels_length, modulationPass_length, analyzeWheels_length]
    exact hi
  rw [List.getD_eq_getElem _ _ hilen, List.getD_eq_getElem _ _ hi]
  unfold clampWheels modulationPass analyzeWheels
  simp only [List.getElem_map]
  exact wheel_modulation_formula _ _ pedal hr5 _

/-- Witness for C3 (amended) at the concrete slip-band cycle, wheel 2. -/
theorem C3_witness :
    ((processBraking cInactive 0 sensorsSlip 100).wheel_data_.getD 2
        default).applied_brake_pressure_bar =
      clampPressure
        (if lockupCheck
            (postTransCtrl cInactive 0 sensorsSlip 100).vehicle_reference_speed_kmh_
            ((postTransCtrl cInactive 0 sensorsSlip 100).wheel_data_.getD 2
              default).speed_kmh = true then
          max 0 ((if (postTransCtrl cInactive 0 sensorsSlip 100).current_abs_state_ =
              INTERVENING ∧
              ((postTransCtrl cInactive 0 sensorsSlip 100).wheel_data_.getD 2
                default).is_locking = true then
            ((postTransCtrl cInactive 0 sensorsSlip 100).wheel_data_.getD 2
              default).applied_brake_pressure_bar
          else 100) - 50)
        else if (postTransCtrl cInactive 0 sensorsSlip 100).vehicle_reference_speed_kmh_ *
              (3/20) <
            (postTransCtrl cInactive 0 sensorsSlip 100).vehicle_reference_speed_kmh_ -
            ((postTransCtrl cInactive 0 sensorsSlip 100).wheel_data_.getD 2
              default).speed_kmh then
          (if (postTransCtrl cInactive 0 sensorsSlip 100).current_abs_state_ =
              INTERVENING ∧
              ((postTransCtrl cInactive 0 sensorsSlip 100).wheel_data_.getD 2
                default).is_locking = true then
            ((postTransCtrl cInactive 0 sensorsSlip 100).wheel_data_.getD 2
              default).applied_brake_pressure_bar
          else 100)
        else 100) :=
  C3_modulation cInactive 0 100 sensorsSlip (by with_unfolding_all decide)
    (by with_unfolding_all decide) (by with_unfolding_all decide)
    (by with_unfolding_all decide) (by with_unfolding_all decide) 2
    (by with_unfolding_all decide)

/-! ### Claim C6 -/

/-- One clean cycle from `INTERVENING`: a nominal input batch (no fault, the
entry condition holds, no wheel trips the detector) keeps 4 wheels and either
increments the intervention counter (staying `INTERVENING`) or, when the
incremented counter exceeds 10, exits to `MONITORING` resetting it. -/
theorem clean_cycle (c : ABSControl) (inp : CycleInput)
    (hw : c.wheel_data_.length = 4) (hst : c.current_abs_state_ = INTERVENING)
    (hcl : CleanInput inp) :
    (processBraking c inp.hint inp.sensors inp.pedal).wheel_data_.length = 4 ∧
    (¬10 < c.cycles_since_last_intervention_ + 1 →
      (processBraking c inp.hint inp.sensors inp.pedal).current_abs_state_ =
        INTERVENING ∧
      (processBraking c inp.hint inp.sensors inp.pedal).cycles_since_last_intervention_ =
        c.cycles_since_last_intervention_ + 1) ∧
    (10 < c.cycles_since_last_intervention_ + 1 →
      (processBraking c inp.hint inp.sensors inp.pedal).current_abs_state_ =
        MONITORING ∧
      (processBraking c inp.hint inp.sensors
        inp.pedal).cycles_since_last_intervention_ = 0) := by
  obtain ⟨hlen4, hscan, href, hped, hnolock⟩ := hcl
  have hne1 : c.current_abs_state_ ≠ FAULT_DETECTED := by rw [hst]; simp
  have hne2 : c.current_abs_state_ ≠ INITIALIZING := by rw [hst]; simp
  have hup : (updateVehicleReferenceSpeed c inp.sensors
      inp.hint).vehicle_reference_speed_kmh_ = refOf inp.sensors inp.hint :=
    updateVehicleReferenceSpeed_ref_of_le c inp.sensors inp.hint (by rw [hlen4, hw])
  have hc1state : (updateVehicleReferenceSpeed c inp.sensors
      inp.hint).current_abs_state_ = INTERVENING := by
    rw [updateVehicleReferenceSpeed_state, hst]
  have hcheck : checkForSystemFaults
      (updateVehicleReferenceSpeed c inp.sensors inp.hint) inp.sensors =
      updateVehicleReferenceSpeed c inp.sensors inp.hint := by
    unfold checkForSystemFaults
    rw [hscan]
    dsimp only
    rw [if_neg]
    rintro ⟨hcon, _⟩
    rw [hlen4] at hcon
    exact lt_irrefl 4 hcon
  have hpot : 10 < (updateVehicleReferenceSpeed c inp.sensors
      inp.hint).vehicle_reference_speed_kmh_ ∧ 20 < inp.pedal := by
    refine ⟨?_, hped⟩
    rw [hup]
    exact href
  have htrans : transitionStep (updateVehicleReferenceSpeed c inp.sensors inp.hint)
      inp.pedal = updateVehicleReferenceSpeed c inp.sensors inp.hint := by
    unfold transitionStep
    rw [if_neg, if_neg]
    · rintro ⟨_, hcon⟩
      rw [hc1state] at hcon
      exact ABSState.noConfusion hcon
    · rintro ⟨hnp, _⟩
      exact hnp hpot
  have hanyf : (analyzeWheels
      (updateVehicleReferenceSpeed c inp.sensors inp.hint).current_abs_state_
      (updateVehicleReferenceSpeed c inp.sensors inp.hint).vehicle_reference_speed_kmh_
      inp.pedal
      (updateVehicleReferenceSpeed c inp.sensors inp.hint).wheel_data_).any
      (·.is_locking) = false := by
    apply analyzeWheels_any_of_all_false
    intro wd hwd
    rw [updateVehicleReferenceSpeed_wheels] at hwd
    rcases updateWheelSpeeds_speed_mem c.wheel_data_ inp.sensors (by rw [hw, hlen4])
      wd hwd with ⟨s, hs, he⟩
    rw [he, hup]
    exact hnolock s hs
  have hkey : processBraking c inp.hint inp.sensors inp.pedal =
      (fun c4 => { c4 with wheel_data_ := clampWheels c4.wheel_data_ })
        (mainPhase (updateVehicleReferenceSpeed c inp.sensors inp.hint) inp.pedal) := by
    unfold processBraking
    rw [if_neg hne1, if_neg hne2]
    dsimp only
    rw [hcheck, if_neg (by rw [hc1state]; simp)]
  have hlenw : (clampWheels (recoveryPass inp.pedal (analyzeWheels
      (updateVehicleReferenceSpeed c inp.sensors inp.hint).current_abs_state_
      (updateVehicleReferenceSpeed c inp.sensors inp.hint).vehicle_reference_speed_kmh_
      inp.pedal
      (updateVehicleReferenceSpeed c inp.sensors inp.hint).wheel_data_))).length = 4 := by
    rw [clampWheels_length, recoveryPass_length, analyzeWheels_length,
      updateVehicleReferenceSpeed_wheels, updateWheelSpeeds_length, hw]
  by_cases hcount : 10 < c.cycles_since_last_intervention_ + 1
  · have hmain : mainPhase (updateVehicleReferenceSpeed c inp.sensors inp.hint)
        inp.pedal =
        { updateVehicleReferenceSpeed c inp.sensors inp.hint with
          current_abs_state_ := MONITORING,
          cycles_since_last_intervention_ := 0,
          wheel_data_ := recoveryPass inp.pedal (analyzeWheels
            (updateVehicleReferenceSpeed c inp.sensors inp.hint).current_abs_state_
            (updateVehicleReferenceSpeed c inp.sensors
              inp.hint).vehicle_reference_speed_kmh_
            inp.pedal
            (updateVehicleReferenceSpeed c inp.sensors inp.hint).wheel_data_) } := by
      simp only [mainPhase, htrans]
      rw [if_pos (Or.inr hc1state), hanyf]
      rw [if_neg (by simp), if_pos hc1state]
      rw [if_pos (show (10 : Int) < (updateVehicleReferenceSpeed c inp.sensors
        inp.hint).cycles_since_last_intervention_ + 1 from hcount)]
      rw [if_pos hpot]
    refine ⟨?_, fun hcon => absurd hcount hcon, fun _ => ⟨?_, ?_⟩⟩ <;>
      rw [hkey, hmain]
    exact hlenw
  · have hmain : mainPhase (updateVehicleReferenceSpeed c inp.sensors inp.hint)
        inp.pedal =
        { updateVehicleReferenceSpeed c inp.sensors inp.hint with
          cycles_since_last_intervention_ :=
            (updateVehicleReferenceSpeed c inp.sensors
              inp.hint).cycles_since_last_intervention_ + 1,
          wheel_data_ := recoveryPass inp.pedal (analyzeWheels
            (updateVehicleReferenceSpeed c inp.sensors inp.hint).current_abs_state_
            (updateVehicleReferenceSpeed c inp.sensors
              inp.hint).vehicle_reference_speed_kmh_
            inp.pedal
            (updateVehicleReferenceSpeed c inp.sensors inp.hint).wheel_data_) } := by
      simp only [mainPhase, htrans]
      rw [if_pos (Or.inr hc1state), hanyf]
      rw [if_neg (by simp), if_pos hc1state]
      rw [if_neg (show ¬(10 : Int) < (updateVehicleReferenceSpeed c inp.sensors
        inp.hint).cycles_since_last_intervention_ + 1 from hcount)]
    refine ⟨?_, fun _ => ⟨?_, ?_⟩, fun hcon => absurd hcon hcount⟩ <;>
      rw [hkey, hmain]
    · exact hlenw
    · exact hc1state
    · rfl

/-- Iterating clean cycles from `INTERVENING` while the counter stays within
the hysteresis bound: the state stays `INTERVENING` and the counter adds the
number of cycles. -/
theorem C6_aux (ins : List CycleInput) : ∀ c : ABSControl,
    c.wheel_data_.length = 4 → c.current_abs_state_ = INTERVENING →
    (∀ i ∈ ins, CleanInput i) →
    c.cycles_since_last_intervention_ + ins.length ≤ 10 →
    (runCycles c ins).current_abs_state_ = INTERVENING ∧
    (runCycles c ins).cycles_since_last_intervention_ =
      c.cycles_since_last_intervention_ + ins.length ∧
    (runCycles c ins).wheel_data_.length = 4 := by
  induction ins with
  | nil =>
    intro c hw hst _ _
    exact ⟨hst, by simp [runCycles], hw⟩
  | cons i ins ih =>
    intro c hw hst hcl hbound
    have hclean := hcl i (List.mem_cons_self ..)
    have hnc : ¬10 < c.cycles_since_last_intervention_ + 1 := by
      simp only [List.length_cons] at hbound
      push_cast at hbound
      omega
    obtain ⟨hlen, hno, _⟩ := clean_cycle c i hw hst hclean
    obtain ⟨hstI, hcnt⟩ := hno hnc
    have hrun : runCycles c (i :: ins) =
        runCycles (processBraking c i.hint i.sensors i.pedal) ins := rfl
    rw [hrun]
    obtain ⟨ha, hb, hc2⟩ := ih (processBraking c i.hint i.sensors i.pedal) hlen hstI
      (fun j hj => hcl j (List.mem_cons_of_mem _ hj))
      (by
        rw [hcnt]
        simp only [List.length_cons] at hbound
        push_cast at hbound ⊢
        omega)
    refine ⟨ha, ?_, hc2⟩
    rw [hb, hcnt]
    simp only [List.length_cons]
    push_cast
    ring

/-- C6: starting in `INTERVENING` with a fresh counter, over a run of 11
consecutive clean cycles (no wheel flagged, entry condition holding, nominal
sensors), the counter increments each cycle and the controller stays
`INTERVENING` through the first 10 cycles, then exits to `MONITORING` exactly
on the 11th cycle with the counter reset to 0. -/
theorem C6_hysteresis (c : ABSControl) (ins : List CycleInput)
    (hw : c.wheel_data_.length = 4) (hst : c.current_abs_state_ = INTERVENING)
    (hc0 : c.cycles_since_last_intervention_ = 0)
    (hcl : ∀ i ∈ ins, CleanInput i) (hlen : ins.length = 11) :
    (∀ k : Nat, k ≤ 10 →
      (runCycles c (ins.take k)).current_abs_state_ = INTERVENING ∧
      (runCycles c (ins.take k)).cycles_since_last_intervention_ = (k : Int)) ∧
    (runCycles c ins).current_abs_state_ = MONITORING ∧
    (runCycles c ins).cycles_since_last_intervention_ = 0 := by
  constructor
  · intro k hk
    have htk : (ins.take k).length = k := by
      rw [List.length_take, hlen]
      omega
    obtain ⟨h1, h2, _⟩ := C6_aux (ins.take k) c hw hst
      (fun i hi => hcl i (List.mem_of_mem_take hi))
      (by rw [hc0, htk]; omega)
    refine ⟨h1, ?_⟩
    rw [h2, hc0, htk]
    ring
  · have hrun : runCycles c ins = runCycles (runCycles c (ins.take 10)) (ins.drop 10) := by
      conv_lhs => rw [← List.take_append_drop 10 ins]
      simp only [runCycles, List.foldl_append]
    have ht10 : (ins.take 10).length = 10 := by
      rw [List.length_take, hlen]
      rfl
    obtain ⟨hstI, hcnt, hlen4⟩ := C6_aux (ins.take 10) c hw hst
      (fun i hi => hcl i (List.mem_of_mem_take hi))
      (by rw [hc0, ht10]; norm_num)
    have hdlen : (ins.drop 10).length = 1 := by
      rw [List.length_drop, hlen]
    obtain ⟨j, hj⟩ : ∃ j, ins.drop 10 = [j] := by
      cases hd : ins.drop 10 with
      | nil =>
        rw [hd] at hdlen
        exact absurd hdlen (by simp)
      | cons j tl =>
        rw [hd] at hdlen
        simp only [List.length_cons] at hdlen
        have htl : tl = [] := List.eq_nil_of_length_eq_zero (by omega)
        exact ⟨j, by rw [htl]⟩
    have hjin : CleanInput j := by
      apply hcl j
      apply List.mem_of_mem_drop (l := ins) (n := 10)
      rw [hj]
      exact List.mem_cons_self ..
    rw [hrun, hj]
    have hone : runCycles (runCycles c (ins.take 10)) [j] =
        processBraking (runCycles c (ins.take 10)) j.hint j.sensors j.pedal := rfl
    rw [hone]
    obtain ⟨_, _, hexit⟩ := clean_cycle (runCycles c (ins.take 10)) j hlen4 hstI hjin
    apply hexit
    rw [hcnt, hc0, ht10]
    norm_num

/-- Witness for C6 at eleven identical clean cycles (50 km/h everywhere,
30 bar pedal) from a freshly intervening controller. -/
theorem C6_witness :
    (runCycles cIntervening (List.replicate 11 cleanInp)).current_abs_state_ =
      MONITORING ∧
    (runCycles cIntervening
      (List.replicate 11 cleanInp)).cycles_since_last_intervention_ = 0 :=
  (C6_hysteresis cIntervening (List.replicate 11 cleanInp) rfl rfl rfl
    (fun i hi => by
      rw [List.eq_of_mem_replicate hi]
      with_unfolding_all decide)
    rfl).2

/-! ### Claim C10 -/

/-- C10: a call to `processBraking` entered in state `INITIALIZING` returns
without modifying any controller field — wheel speeds, locking flags, applied
pressures, reference speed, state, intervention counter and fault code are all
unchanged. -/
theorem C10_initializing_frame (c : ABSControl) (v : ℚ) (ss : List SensorData) (pedal : ℚ)
    (h : c.current_abs_state_ = INITIALIZING) :
    processBraking c v ss pedal = c := by
  unfold processBraking
  rw [if_neg (by simp [h]), if_pos h]

/-- Witness for C10 at a concrete initializing controller. -/
theorem C10_witness : processBraking cInitializing 0 [] 50 = cInitializing :=
  C10_initializing_frame cInitializing 0 [] 50 rfl

/-! ### Claim C5 -/

/-- C5: a call to `processBraking` entered in state `FAULT_DETECTED` sets every
wheel's applied pressure to the raw pedal input and runs no transition logic:
the result is exactly the entry controller with the pass-through pressures, so
the state stays `FAULT_DETECTED` and the fault code is unchanged (only
`runDiagnostics` can clear it). -/
theorem C5_fault_passthrough (c : ABSControl) (v : ℚ) (ss : List SensorData) (pedal : ℚ)
    (h : c.current_abs_state_ = FAULT_DETECTED) :
    processBraking c v ss pedal =
      { c with wheel_data_ := setAllPressures pedal c.wheel_data_ } ∧
    (processBraking c v ss pedal).current_abs_state_ = FAULT_DETECTED ∧
    (processBraking c v ss pedal).fault_code_ = c.fault_code_ ∧
    ∀ w ∈ (processBraking c v ss pedal).wheel_data_,
      w.applied_brake_pressure_bar = pedal := by
  have key : processBraking c v ss pedal =
      { c with wheel_data_ := setAllPressures pedal c.wheel_data_ } := by
    unfold processBraking
    rw [if_pos h]
  refine ⟨key, ?_, ?_, ?_⟩
  · rw [key]; exact h
  · rw [key]
  · rw [key]; exact setAllPressures_mem pedal c.wheel_data_

/-- Witness for C5 at a concrete faulted controller (fault code 7, pedal 80). -/
theorem C5_witness :
    processBraking cFaulted 0 [] 80 =
      { cFaulted with wheel_data_ := setAllPressures 80 cFaulted.wheel_data_ } :=
  (C5_fault_passthrough cFaulted 0 [] 80 rfl).1

/-! ### Claim C9 -/

/-- C9: whatever the entry state and whatever the outcome of the modelled
random fault source, `runDiagnostics` leaves the controller either `INACTIVE`
with fault code 0 or `FAULT_DETECTED` with a nonzero fault code; no other
state is possible. -/
theorem C9_diagnostics_dichotomy (c : ABSControl) (sensor_conn_ok actuator_ok : Bool)
    (sensor_rand : Nat) :
    ((runDiagnostics c sensor_conn_ok actuator_ok sensor_rand).current_abs_state_ =
        INACTIVE ∧
      (runDiagnostics c sensor_conn_ok actuator_ok sensor_rand).fault_code_ = 0) ∨
    ((runDiagnostics c sensor_conn_ok actuator_ok sensor_rand).current_abs_state_ =
        FAULT_DETECTED ∧
      (runDiagnostics c sensor_conn_ok actuator_ok sensor_rand).fault_code_ ≠ 0) := by
  cases sensor_conn_ok <;> cases actuator_ok <;>
    simp [runDiagnostics] <;> omega

/-! ### Claim C1 -/

/-- C1 as frozen is false: entered in `FAULT_DETECTED` (a state the claim
explicitly includes) with pedal input 300 bar, `processBraking` passes 300
through to every wheel and returns before the final clamp, so the applied
pressures do not lie in [0, 200]. -/
theorem C1_counterexample :
    (processBraking cFaulted 0 [] 300).wheel_data_.map (·.applied_brake_pressure_bar) =
      [300, 300, 300, 300] ∧ ¬((300 : ℚ) ≤ 200) := by with_unfolding_all decide

/-- C1 (amended): if every wheel's applied pressure lies in [0, 200] on entry
and the pedal-pressure input lies in [0, 200], then on return from
`processBraking` every wheel's applied pressure lies in [0, 200], for every
entry state (including `FAULT_DETECTED` and `INITIALIZING`) and every sensor
batch.  The entry bounds are needed because the fault pass-through and the
early fault return skip the final clamp (`C1_counterexample`). -/
theorem C1_pressure_invariant (c : ABSControl) (v pedal : ℚ) (ss : List SensorData)
    (hw : ∀ w ∈ c.wheel_data_,
      0 ≤ w.applied_brake_pressure_bar ∧ w.applied_brake_pressure_bar ≤ 200)
    (hp0 : 0 ≤ pedal) (hp1 : pedal ≤ 200) :
    ∀ w ∈ (processBraking c v ss pedal).wheel_data_,
      0 ≤ w.applied_brake_pressure_bar ∧ w.applied_brake_pressure_bar ≤ 200 := by
  intro w hwmem
  unfold processBraking at hwmem
  by_cases h1 : c.current_abs_state_ = FAULT_DETECTED
  · rw [if_pos h1] at hwmem
    have hp := setAllPressures_mem pedal c.wheel_data_ w hwmem
    rw [hp]
    exact ⟨hp0, hp1⟩
  · rw [if_neg h1] at hwmem
    by_cases h2 : c.current_abs_state_ = INITIALIZING
    · rw [if_pos h2] at hwmem
      exact hw w hwmem
    · rw [if_neg h2] at hwmem
      dsimp only at hwmem
      by_cases h3 : (checkForSystemFaults (updateVehicleReferenceSpeed c ss v)
          ss).current_abs_state_ = FAULT_DETECTED
      · rw [if_pos h3] at hwmem
        rw [checkForSystemFaults_wheels, updateVehicleReferenceSpeed_wheels] at hwmem
        have hmem2 : w.applied_brake_pressure_bar ∈
            (updateWheelSpeeds c.wheel_data_ ss).map (·.applied_brake_pressure_bar) :=
          List.mem_map_of_mem _ hwmem
        rw [updateWheelSpeeds_pressures] at hmem2
        rcases List.mem_map.1 hmem2 with ⟨w0, hw0, he⟩
        rw [← he]
        exact hw w0 hw0
      · rw [if_neg h3] at hwmem
        exact clampWheels_mem _ w hwmem

/-- Witness for C1 (amended) at a concrete idle controller and a 100 bar pedal
input. -/
theorem C1_witness :
    0 ≤ ((processBraking cInactive 0 sensors50 100).wheel_data_.getD 0
        default).applied_brake_pressure_bar ∧
    ((processBraking cInactive 0 sensors50 100).wheel_data_.getD 0
        default).applied_brake_pressure_bar ≤ 200 :=
  C1_pressure_invariant cInactive 0 100 sensors50 (by with_unfolding_all decide)
    (by norm_num) (by norm_num) _ (by with_unfolding_all decide)

/-! ### Claim C2 -/

/-- C2 as frozen is false: entered `INACTIVE` (non-fault) with wheel 2
reporting 400 km/h and a 50 bar pedal input, the cycle does fault with code
22, but it returns before any pressure assignment, so the wheels keep their
previous pressures (0 bar here) instead of receiving the pedal input. -/
theorem C2_counterexample :
    (processBraking cInactive 0 sensors400 50).current_abs_state_ = FAULT_DETECTED ∧
    (processBraking cInactive 0 sensors400 50).fault_code_ = 22 ∧
    (processBraking cInactive 0 sensors400 50).wheel_data_.map
      (·.applied_brake_pressure_bar) = [0, 0, 0, 0] ∧ (0 : ℚ) ≠ 50 := by
  with_unfolding_all decide

/-- C2 (amended): entered in `INACTIVE`, `MONITORING` or `INTERVENING` with a
batch whose first two readings are well-formed and whose wheel-2 reading is
400 km/h, `processBraking` leaves the cycle in `FAULT_DETECTED` with fault
code 22 and every wheel's applied pressure unchanged from entry (the pedal
pass-through only happens on the next call, which is entered faulted). -/
theorem C2_fault22 (c : ABSControl) (v pedal : ℚ) (s0 s1 s2 s3 : SensorData)
    (hst : c.current_abs_state_ = INACTIVE ∨ c.current_abs_state_ = MONITORING ∨
      c.current_abs_state_ = INTERVENING)
    (h0 : s0.id = 0) (h0v : ¬(s0.value < -10 ∨ 350 < s0.value))
    (h1 : s1.id = 1) (h1v : ¬(s1.value < -10 ∨ 350 < s1.value))
    (h2 : s2.id = 2) (h2v : s2.value = 400) :
    (processBraking c v [s0, s1, s2, s3] pedal).current_abs_state_ = FAULT_DETECTED ∧
    (processBraking c v [s0, s1, s2, s3] pedal).fault_code_ = 22 ∧
    (processBraking c v [s0, s1, s2, s3] pedal).wheel_data_.map
        (·.applied_brake_pressure_bar) =
      c.wheel_data_.map (·.applied_brake_pressure_bar) := by
  have hne1 : c.current_abs_state_ ≠ FAULT_DETECTED := by
    rcases hst with h | h | h <;> simp [h]
  have hne2 : c.current_abs_state_ ≠ INITIALIZING := by
    rcases hst with h | h | h <;> simp [h]
  have hs : scanSensors 0 [s0, s1, s2, s3] = .error 22 := by
    norm_num [scanSensors, h0, h0v, h1, h1v, h2, h2v]
  have hcheck : checkForSystemFaults (updateVehicleReferenceSpeed c [s0, s1, s2, s3] v)
      [s0, s1, s2, s3] =
      { updateVehicleReferenceSpeed c [s0, s1, s2, s3] v with
        current_abs_state_ := FAULT_DETECTED, fault_code_ := 22 } := by
    unfold checkForSystemFaults
    rw [hs]
  have key : processBraking c v [s0, s1, s2, s3] pedal =
      { updateVehicleReferenceSpeed c [s0, s1, s2, s3] v with
        current_abs_state_ := FAULT_DETECTED, fault_code_ := 22 } := by
    unfold processBraking
    rw [if_neg hne1, if_neg hne2]
    dsimp only
    rw [hcheck]
    rw [if_pos rfl]
  rw [key]
  refine ⟨rfl, rfl, ?_⟩
  rw [updateVehicleReferenceSpeed_wheels]
  exact updateWheelSpeeds_pressures c.wheel_data_ [s0, s1, s2, s3]

/-- Witness for C2 (amended) at the concrete 400 km/h batch. -/
theorem C2_witness :
    (processBraking cInactive 0 [⟨0, 50⟩, ⟨1, 50⟩, ⟨2, 400⟩, ⟨3, 50⟩] 50).current_abs_state_ =
      FAULT_DETECTED ∧
    (processBraking cInactive 0 [⟨0, 50⟩, ⟨1, 50⟩, ⟨2, 400⟩, ⟨3, 50⟩] 50).fault_code_ = 22 ∧
    (processBraking cInactive 0 [⟨0, 50⟩, ⟨1, 50⟩, ⟨2, 400⟩, ⟨3, 50⟩] 50).wheel_data_.map
        (·.applied_brake_pressure_bar) =
      cInactive.wheel_data_.map (·.applied_brake_pressure_bar) :=
  C2_fault22 cInactive 0 50 ⟨0, 50⟩ ⟨1, 50⟩ ⟨2, 400⟩ ⟨3, 50⟩ (Or.inl rfl) rfl
    (by norm_num) rfl (by norm_num) rfl rfl

end AbsControl
